import Mathlib

/-!
Verification development for the `resolve` command of a paymail inspector
(`cmd/resolve.go`).  The command's `Run` function is embedded as a pure
function `run` over an explicit configuration, a record of external
collaborators (capability discovery, PKI fetch, address resolution, public
profile fetch and syntactic validation), a current-time string and a random
hex source.  The observable behaviour of a run is the ordered list of log
events it emits, the ordered list of network calls it performs, and the
final resolved output (output script and address), collected in `RunResult`.
-/

set_option autoImplicit false

/-- Log severities of the `chalker.Log` collaborator (`chalker` package). -/
inductive LogLevel where
  | error
  | warn
  | info
  | success
  | dflt
  deriving DecidableEq

/-- One emitted log line: a severity and a message.  Colorization of message
fragments (the `chalk` package) is display-only formatting and is embedded as
the identity on text. -/
structure LogEvent where
  level : LogLevel
  message : String
  deriving DecidableEq

/-- The body posted to the address-resolution endpoint
(`paymail.AddressResolutionRequest`, constructed at resolve.go:165-172). -/
structure AddressResolutionRequest where
  Amount : Nat
  Dt : String
  Purpose : String
  SenderHandle : String
  SenderName : String
  Signature : String
  deriving DecidableEq

/-- Response of a PKI lookup (`paymail.PKIResponse`); only the public key is
read by the resolve command. -/
structure PKIResponse where
  PubKey : String
  deriving DecidableEq

/-- Response of the address-resolution POST
(`paymail.AddressResolutionResponse`). -/
structure AddressResolutionResponse where
  Output : String
  Address : String
  deriving DecidableEq

/-- Response of the public-profile GET (`paymail.PublicProfileResponse`). -/
structure PublicProfileResponse where
  Name : String
  Avatar : String
  deriving DecidableEq

/-- A capability value: either a URL template string or a boolean flag. -/
inductive CapValue where
  | str (s : String)
  | flag (b : Bool)
  deriving DecidableEq

/-- Modelled from the spec: a CapabilitySet is a mapping from capability
identifier (BRFC code or well-known alias) to either a URL template string or
a boolean flag. -/
abbrev CapabilitySet := List (String × CapValue)

/-- First entry of the set whose key equals `k`, if any. -/
def lookupCap (c : CapabilitySet) (k : String) : Option CapValue :=
  (c.find? (fun p => p.1 == k)).map (fun p => p.2)

/-- Modelled from the spec: `CapabilitySet.getString(primaryID, alternateID)`
returns the URL string for the primary identifier, falling back to the
alternate identifier, and the empty string if absent (first match wins). -/
def CapabilitySet.GetValueString (c : CapabilitySet) (primary alternate : String) : String :=
  match lookupCap c primary with
  | some (.str s) => s
  | _ =>
    match lookupCap c alternate with
    | some (.str s) => s
    | _ => ""

/-- Modelled from the spec: `CapabilitySet.getBool(primaryID, alternateID)`
returns the boolean flag for the primary identifier, falling back to the
alternate identifier, and `false` if absent. -/
def CapabilitySet.GetValueBool (c : CapabilitySet) (primary alternate : String) : Bool :=
  match lookupCap c primary with
  | some (.flag b) => b
  | _ =>
    match lookupCap c alternate with
    | some (.flag b) => b
    | _ => false

/-- Modelled from the spec: well-known capability identifier for the PKI
endpoint (`paymail.BRFCPki`). -/
def BRFCPki : String := "pki"

/-- Modelled from the spec: alternate identifier for the PKI endpoint
(`paymail.BRFCPkiAlternate`). -/
def BRFCPkiAlternate : String := "0c4339ef99c2"

/-- Modelled from the spec: identifier for the payment-destination endpoint
(`paymail.BRFCPaymentDestination`). -/
def BRFCPaymentDestination : String := "paymentDestination"

/-- Modelled from the spec: alternate identifier for basic address resolution
(`paymail.BRFCBasicAddressResolution`). -/
def BRFCBasicAddressResolution : String := "759684b1a19a"

/-- Modelled from the spec: identifier of the sender-validation flag
(`paymail.BRFCSenderValidation`). -/
def BRFCSenderValidation : String := "6745385c3fc0"

/-- Modelled from the spec: identifier of the public-profile endpoint
(`paymail.BRFCPublicProfile`). -/
def BRFCPublicProfile : String := "f12f968c92d6"

/-- The error text fragment Go's context package uses for deadline expiry;
resolve.go:80 matches on it with `strings.Contains`. -/
def deadlineExceededMsg : String := "context deadline exceeded"

/-- Modelled from the spec: name of the sender-handle flag / viper key
(`flagSenderHandle`, declared in the cmd package). -/
def flagSenderHandle : String := "sender-handle"

/-- Modelled from the spec: name of the sender-name flag / viper key
(`flagSenderName`, declared in the cmd package). -/
def flagSenderName : String := "sender-name"

/-- `startsWithList l p`: does the list `l` start with the pattern `p`?
(Helper for the embedding of Go's `strings.Contains`.) -/
def startsWithList : List Char → List Char → Bool
  | _, [] => true
  | [], _ :: _ => false
  | a :: l, b :: m => a == b && startsWithList l m

/-- `hasSubAux p l`: does `l` have `p` as a contiguous sublist?  -/
def hasSubAux (p : List Char) : List Char → Bool
  | [] => p.isEmpty
  | a :: t => startsWithList (a :: t) p || hasSubAux p t

/-- Embedding of Go's `strings.Contains s pat`. -/
def containsSub (s pat : String) : Bool :=
  hasSubAux pat.data s.data

/-- `splitOnChar c l` splits `l` at every occurrence of `c`; mirrors Go's
`strings.Split` on a one-character separator (always returns at least one
part, and `n` separators yield `n+1` parts). -/
def splitOnChar (c : Char) : List Char → List (List Char)
  | [] => [[]]
  | a :: rest =>
    if a == c then
      [] :: splitOnChar c rest
    else
      match splitOnChar c rest with
      | [] => [[a]]
      | h :: t => (a :: h) :: t

/-- Embedding of Go's `strings.Split s c` for a one-character separator. -/
def strSplit (s : String) (c : Char) : List String :=
  (splitOnChar c s.data).map String.mk

/-- Go's `strings.Split(s, "@")[0]` (out-of-range yields the empty string). -/
def part0 (s : String) : String := (strSplit s '@').getD 0 ""

/-- Go's `strings.Split(s, "@")[1]` (out-of-range yields the empty string). -/
def part1 (s : String) : String := (strSplit s '@').getD 1 ""

/-- Modelled from the spec: `paymail.ExtractParts` (paymail package, not part
of the core source) derives the `(domain, address)` pair from an input by
splitting on `@`: when the input contains `@`, the sanitized full address is
returned together with the part after the `@`; when it does not, the input is
treated as a bare domain and the address result is empty. -/
def extractParts (input : String) : String × String :=
  let parts := strSplit input '@'
  if parts.length ≤ 1 then (input, "")
  else (parts.getD 1 "", input)

/-- Hexadecimal digits, in value order. -/
def hexChars : List Char := "0123456789abcdef".data

/-- The hex digit of value `k` (for `k < 16`). -/
def hexDigit (k : Nat) : Char := hexChars.getD k '0'

/-- The two hex digits encoding one byte. -/
def byteHex (b : Nat) : List Char := [hexDigit (b / 16 % 16), hexDigit (b % 16)]

/-- Hex encoding of the first `n` bytes drawn from an entropy source. -/
def randomHexData (entropy : Nat → Nat) : Nat → List Char
  | 0 => []
  | n + 1 => randomHexData entropy n ++ byteHex (entropy n)

/-- Modelled from the spec: `RandomHex(byteLength)` (cmd package helper, not
part of the core source) returns the hex encoding of `byteLength` random
bytes drawn from an entropy source — two hex characters per byte. -/
def RandomHex (entropy : Nat → Nat) (n : Nat) : String :=
  ⟨randomHexData entropy n⟩

/-- Caller-facing configuration of one `resolve` invocation: the positional
argument and the flag values registered in `init` (resolve.go:216-241). -/
structure Config where
  arg : String
  senderHandleFlag : String
  senderNameFlag : String
  amount : Nat
  purpose : String
  signature : String
  skipPki : Bool
  skipPublicProfile : Bool
  deriving DecidableEq

/-- Modelled from viper's documented `BindPFlag`/`GetString` behaviour applied
to the bindings made in `init` (resolve.go:227 and resolve.go:231): the key
`flagSenderHandle` is bound to the sender-handle persistent flag, and the key
`flagSenderName` is *also* bound to the sender-handle persistent flag, because
line 231 looks up `flagSenderHandle` rather than `flagSenderName`.  A `GetString`
on a bound key returns the bound flag's value; unbound keys return the empty
string. -/
def viperGetString (cfg : Config) (key : String) : String :=
  if key = flagSenderHandle then cfg.senderHandleFlag
  else if key = flagSenderName then cfg.senderHandleFlag
  else ""

/-- One outgoing network call of a run, with its arguments. -/
inductive NetCall where
  | discover (domain : String)
  | pki (url a0 domain : String)
  | resolve (url a0 domain : String) (req : AddressResolutionRequest)
  | profile (url a0 domain : String)
  deriving DecidableEq

/-- Is this call a capability-discovery call? -/
def NetCall.isDiscover : NetCall → Bool
  | .discover _ => true
  | _ => false

/-- Is this call a PKI fetch? -/
def NetCall.isPki : NetCall → Bool
  | .pki _ _ _ => true
  | _ => false

/-- Is this call an address-resolution POST? -/
def NetCall.isResolve : NetCall → Bool
  | .resolve _ _ _ _ => true
  | _ => false

/-- The request body of an address-resolution call, if it is one. -/
def NetCall.resolveReq : NetCall → Option AddressResolutionRequest
  | .resolve _ _ _ r => some r
  | _ => none

/-- External collaborators of the resolve command: syntactic validation
(`validatePaymailAndDomain`), capability discovery (`getCapabilities`), PKI
fetch (`getPki`), the address-resolution POST (`paymail.AddressResolution`)
and the public-profile GET (`paymail.GetPublicProfile`).  Transport errors
are carried as their message strings; a successful PKI or profile call may
still return no document (Go `nil` pointer), hence the `Option`. -/
structure Collab where
  validate : String → String → Bool
  getCapabilities : String → Except String CapabilitySet
  getPki : String → String → String → Except String (Option PKIResponse)
  addressResolution :
    String → String → String → AddressResolutionRequest →
      Except String AddressResolutionResponse
  getPublicProfile : String → String → String → Except String (Option PublicProfileResponse)

/-- The observable outcome of one run: emitted log lines in order, outgoing
network calls in order, and — on full success — the resolved output script
and address. -/
structure RunResult where
  logs : List LogEvent
  calls : List NetCall
  output : Option (String × String)
  deriving DecidableEq

/-- The SenderRequest body constructed at resolve.go:165-172: amount, purpose
from the flags, `dt` the current UTC time already formatted as RFC3339,
sender handle as computed by the run, sender name via
`viper.GetString(flagSenderName)`, and the (possibly synthesized) signature. -/
def mkSenderRequest (cfg : Config) (now senderHandle signature : String) :
    AddressResolutionRequest :=
  { Amount := cfg.amount
    Dt := now
    Purpose := cfg.purpose
    SenderHandle := senderHandle
    SenderName := viperGetString cfg flagSenderName
    Signature := signature }

/-- Embedding of the sender-validation branch (resolve.go:102-152).  Returns
`.error (logs, calls)` when the branch aborts the run, and
`.ok (logs, calls, signature)` with the possibly-synthesized signature when
the run continues. -/
def senderValidationPhase (col : Collab) (rhex : Nat → String) (caps : CapabilitySet)
    (domain paymailAddress senderDomain senderHandle sigIn : String) :
    Except (List LogEvent × List NetCall) (List LogEvent × List NetCall × String) :=
  if caps.GetValueBool BRFCSenderValidation "" then
    let logs : List LogEvent := [⟨.warn, "sender validation is ENFORCED"⟩]
    let step :=
      if sigIn.length = 0 then
        (logs ++
          [⟨.error, "missing required flag: --signature - see the help section: -h"⟩,
           ⟨.warn, "attempting to fake a signature for: " ++ senderHandle ++ "..."⟩],
         rhex 64)
      else (logs, sigIn)
    let logs := step.1
    let signature := step.2
    if senderHandle ≠ paymailAddress then
      let calls : List NetCall := [.discover senderDomain]
      match col.getCapabilities senderDomain with
      | .error e =>
        if containsSub e deadlineExceededMsg then
          .error (logs ++ [⟨.warn, "no capabilities found for: " ++ domain⟩], calls)
        else
          .error (logs ++ [⟨.error, "error: " ++ e⟩], calls)
      | .ok senderCapabilities =>
        let senderPkiUrl := senderCapabilities.GetValueString BRFCPki BRFCPkiAlternate
        if senderPkiUrl.length = 0 then
          .error
            (logs ++ [⟨.error, senderDomain ++ " is missing a required capability: " ++ BRFCPki⟩],
             calls)
        else
          let p0 := part0 senderHandle
          let p1 := part1 senderHandle
          let calls := calls ++ [NetCall.pki senderPkiUrl p0 p1]
          match col.getPki senderPkiUrl p0 p1 with
          | .error e => .error (logs ++ [⟨.error, "error: " ++ e⟩], calls)
          | .ok senderPki =>
            let logs :=
              match senderPki with
              | some sp =>
                logs ++
                  [⟨.info,
                    "--" ++ flagSenderHandle ++ " " ++ p0 ++ "@" ++ p1 ++
                      "\x27s pubkey: " ++ sp.PubKey⟩]
              | none => logs
            .ok (logs ++ [⟨.success, "send request pre-validation: passed"⟩], calls, signature)
    else
      .ok (logs ++ [⟨.success, "send request pre-validation: passed"⟩], [], signature)
  else
    .ok ([], [], sigIn)

/-- Embedding of the receiver PKI lookup, address resolution, public-profile
lookup and final report (resolve.go:154-212), appending to the logs and calls
accumulated so far. -/
def resolvePhase (cfg : Config) (col : Collab) (now : String) (caps : CapabilitySet)
    (pkiUrl resolveUrl domain paymailAddress senderHandle signature : String)
    (logs : List LogEvent) (calls : List NetCall) : RunResult :=
  let a0 := part0 paymailAddress
  let calls := calls ++ [NetCall.pki pkiUrl a0 domain]
  match col.getPki pkiUrl a0 domain with
  | .error e => ⟨logs ++ [⟨.error, "error: " ++ e⟩], calls, none⟩
  | .ok pki =>
    let senderRequest := mkSenderRequest cfg now senderHandle signature
    let logs := logs ++ [⟨.dflt, "resolving address: " ++ a0 ++ "@" ++ domain ++ "..."⟩]
    let calls := calls ++ [NetCall.resolve resolveUrl a0 domain senderRequest]
    match col.addressResolution resolveUrl a0 domain senderRequest with
    | .error e => ⟨logs ++ [⟨.error, "address resolution failed: " ++ e⟩], calls, none⟩
    | .ok rr =>
      let logs := logs ++ [⟨.success, "address resolution successful"⟩]
      let url := caps.GetValueString BRFCPublicProfile ""
      let step :=
        if url.length > 0 && !cfg.skipPublicProfile then
          let logs :=
            logs ++ [⟨.dflt, "getting public profile for: " ++ a0 ++ "@" ++ domain ++ "..."⟩]
          let calls := calls ++ [NetCall.profile url a0 domain]
          match col.getPublicProfile url a0 domain with
          | .error e => (logs ++ [⟨.error, "get public profile failed: " ++ e⟩], calls)
          | .ok none => (logs, calls)
          | .ok (some profile) =>
            let logs :=
              if profile.Name.length > 0 then
                logs ++ [⟨.dflt, "name: " ++ profile.Name⟩]
              else logs
            let logs :=
              if profile.Avatar.length > 0 then
                logs ++ [⟨.dflt, "avatar: " ++ profile.Avatar⟩]
              else logs
            (logs, calls)
        else (logs, calls)
      let logs := step.1
      let calls := step.2
      let logs :=
        match pki with
        | some p =>
          if p.PubKey.length > 0 then logs ++ [⟨.dflt, "pubkey: " ++ p.PubKey⟩] else logs
        | none => logs
      let logs :=
        logs ++
          [⟨.dflt, "output script: " ++ rr.Output⟩,
           ⟨.dflt, "address: " ++ rr.Address⟩]
      ⟨logs, calls, some (rr.Output, rr.Address)⟩

/-- Embedding of capability discovery and the required-capability checks
(resolve.go:77-100) followed by the later phases. -/
def discoveryPhase (cfg : Config) (col : Collab) (now : String) (rhex : Nat → String)
    (domain paymailAddress senderDomain senderHandle : String)
    (logs : List LogEvent) : RunResult :=
  let calls : List NetCall := [.discover domain]
  match col.getCapabilities domain with
  | .error e =>
    if containsSub e deadlineExceededMsg then
      ⟨logs ++ [⟨.warn, "no capabilities found for: " ++ domain⟩], calls, none⟩
    else
      ⟨logs ++ [⟨.error, "error: " ++ e⟩], calls, none⟩
  | .ok capabilities =>
    let pkiUrl := capabilities.GetValueString BRFCPki BRFCPkiAlternate
    if pkiUrl.length = 0 then
      ⟨logs ++ [⟨.error, domain ++ " is missing a required capability: " ++ BRFCPki⟩], calls, none⟩
    else
      let resolveUrl :=
        capabilities.GetValueString BRFCPaymentDestination BRFCBasicAddressResolution
      if resolveUrl.length = 0 then
        ⟨logs ++ [⟨.error, domain ++ " is missing a required capability: " ++ BRFCPaymentDestination⟩],
         calls, none⟩
      else
        match senderValidationPhase col rhex capabilities domain paymailAddress
            senderDomain senderHandle cfg.signature with
        | .error (l2, c2) => ⟨logs ++ l2, calls ++ c2, none⟩
        | .ok (l2, c2, signature) =>
          resolvePhase cfg col now capabilities pkiUrl resolveUrl domain paymailAddress
            senderHandle signature (logs ++ l2) (calls ++ c2)

/-- Embedding of the resolve command's `Run` function (resolve.go:45-213):
extraction of the sender and receiver parts, the validation gates, sender
handle defaulting, and the later phases.  `now` is the already-formatted
RFC3339 UTC current time (resolve.go:167) and `rhex` the random hex source
(resolve.go:113). -/
def run (cfg : Config) (col : Collab) (now : String) (rhex : Nat → String) : RunResult :=
  let sd := extractParts (viperGetString cfg flagSenderHandle)
  let dp := extractParts cfg.arg
  let domain := dp.1
  let paymailAddress := dp.2
  if paymailAddress.length = 0 then
    ⟨[⟨.error, "paymail address not found or invalid"⟩], [], none⟩
  else if !(col.validate paymailAddress domain) then
    ⟨[], [], none⟩
  else if sd.2.length = 0 then
    let e := extractParts paymailAddress
    discoveryPhase cfg col now rhex domain paymailAddress e.1 e.2
      [⟨.warn, "--" ++ flagSenderHandle ++ " not set, using: " ++ paymailAddress⟩]
  else if !(col.validate sd.2 sd.1) then
    ⟨[], [], none⟩
  else
    discoveryPhase cfg col now rhex domain paymailAddress sd.1 sd.2 []

/-- Logs component of a sender-validation phase outcome. -/
def svLogs :
    Except (List LogEvent × List NetCall) (List LogEvent × List NetCall × String) →
      List LogEvent
  | .error (l, _) => l
  | .ok (l, _, _) => l

/-- Network-calls component of a sender-validation phase outcome. -/
def svCalls :
    Except (List LogEvent × List NetCall) (List LogEvent × List NetCall × String) →
      List NetCall
  | .error (_, c) => c
  | .ok (_, c, _) => c

/-- The request with its per-run-varying fields (`dt` and signature) blanked. -/
def reqErase (r : AddressResolutionRequest) : AddressResolutionRequest :=
  { r with Dt := "", Signature := "" }

/-- The request with only its `dt` field blanked. -/
def reqEraseDt (r : AddressResolutionRequest) : AddressResolutionRequest :=
  { r with Dt := "" }

/-- A network call with the request's `dt` and signature blanked. -/
def callCore : NetCall → NetCall
  | .resolve u a d r => .resolve u a d (reqErase r)
  | c => c

/-- A network call with the request's `dt` blanked. -/
def callCoreDt : NetCall → NetCall
  | .resolve u a d r => .resolve u a d (reqEraseDt r)
  | c => c

/-- A concrete configuration used by witnesses: `resolve alice@example.com`
with an explicit distinct sender handle and a caller-supplied signature. -/
def cfgW : Config :=
  { arg := "alice@example.com"
    senderHandleFlag := "bob@other.com"
    senderNameFlag := "Alice"
    amount := 5
    purpose := "coffee"
    signature := "sig0"
    skipPki := false
    skipPublicProfile := false }

/-- A concrete receiver capability set advertising PKI, payment destination,
sender validation and a public profile endpoint. -/
def capsW : CapabilitySet :=
  [(BRFCPki, .str "https://pki"),
   (BRFCPaymentDestination, .str "https://res"),
   (BRFCSenderValidation, .flag true),
   (BRFCPublicProfile, .str "https://prof")]

/-- A concrete capability set with only PKI and payment destination. -/
def capsPlain : CapabilitySet :=
  [(BRFCPki, .str "https://pki"),
   (BRFCPaymentDestination, .str "https://res")]

/-- A concrete, fully successful collaborator record used by witnesses. -/
def colW : Collab :=
  { validate := fun _ _ => true
    getCapabilities := fun d => if d == "example.com" then .ok capsW else .ok capsPlain
    getPki := fun _ _ _ => .ok (some ⟨"02aabb"⟩)
    addressResolution := fun _ _ _ _ => .ok ⟨"76a914", "1abc"⟩
    getPublicProfile := fun _ _ _ => .ok (some ⟨"Alice P", "https://av"⟩) }

/-- A trivial random hex source (stands in for an arbitrary one). -/
def rhex0 : Nat → String := fun _ => ""

/-- A concrete entropy source. -/
def ent0 : Nat → Nat := fun i => i

/-- `cfgW` with a receiver argument that has no `@` separator. -/
def cfgNoAt : Config := { cfgW with arg := "nodomain" }

/-- `cfgW` with no caller-supplied signature. -/
def cfgNoSig : Config := { cfgW with signature := "" }

/-- `cfgW` with no sender handle configured. -/
def cfgNoSender : Config := { cfgW with senderHandleFlag := "" }

/-- `colW` discovering an empty capability set for every domain. -/
def colCapsEmpty : Collab := { colW with getCapabilities := fun _ => .ok [] }

/-- `colW` failing discovery with a non-deadline transport error. -/
def colDiscErr : Collab := { colW with getCapabilities := fun _ => .error "boom" }

/-- `colW`, but discovery of any domain other than the receiver's times out. -/
def colC5 : Collab :=
  { colW with
    getCapabilities := fun dm =>
      if dm == "example.com" then .ok capsW else .error deadlineExceededMsg }

/-- `colW` with a profile endpoint that fails with a transport error. -/
def colProfErr : Collab :=
  { colW with getPublicProfile := fun _ _ _ => .error "profboom" }

/-- A deterministic collaborator whose resolution response echoes the
request's `dt` field into the output script. -/
def colDt : Collab :=
  { colW with addressResolution := fun _ _ _ r => .ok ⟨r.Dt, "1abc"⟩ }

/-- `colW` discovering a capability set with a PKI endpoint but no
payment-destination/basic-address-resolution endpoint. -/
def colNoRes : Collab :=
  { colW with getCapabilities := fun _ => .ok [(BRFCPki, .str "https://pki")] }

/-! ## Supporting lemmas -/

theorem viperGetString_handle (cfg : Config) :
    viperGetString cfg flagSenderHandle = cfg.senderHandleFlag := by
  simp [viperGetString]

theorem viperGetString_name (cfg : Config) :
    viperGetString cfg flagSenderName = cfg.senderHandleFlag := by
  simp [viperGetString, flagSenderName, flagSenderHandle]

theorem extractParts_snd {x d pa : String} (h : extractParts x = (d, pa))
    (hpa : pa.length ≠ 0) : pa = x ∧ extractParts pa = (d, pa) := by
  simp only [extractParts] at h
  split at h
  · cases h
    simp at hpa
  · cases h
    refine ⟨rfl, ?_⟩
    simp only [extractParts]
    split
    · omega
    · rfl

theorem getD_mem_or_eq {α : Type} :
    ∀ (l : List α) (k : Nat) (d : α), l.getD k d ∈ l ∨ l.getD k d = d
  | [], _, _ => Or.inr (by simp)
  | a :: _, 0, _ => Or.inl (by simp)
  | _ :: t, k + 1, d =>
    match getD_mem_or_eq t k d with
    | Or.inl h => Or.inl (by simpa using Or.inr h)
    | Or.inr h => Or.inr (by simpa using h)

theorem hexDigit_mem (k : Nat) : hexDigit k ∈ hexChars := by
  unfold hexDigit
  rcases getD_mem_or_eq hexChars k '0' with h | h
  · exact h
  · rw [h]; decide

theorem randomHexData_length (e : Nat → Nat) (n : Nat) :
    (randomHexData e n).length = 2 * n := by
  induction n with
  | zero => rfl
  | succ m ih => simp [randomHexData, byteHex, ih]; omega

theorem randomHexData_mem (e : Nat → Nat) (n : Nat) :
    ∀ c ∈ randomHexData e n, c ∈ hexChars := by
  induction n with
  | zero => simp [randomHexData]
  | succ m ih =>
    intro c hc
    simp only [randomHexData, List.mem_append] at hc
    rcases hc with hc | hc
    · exact ih c hc
    · simp only [byteHex, List.mem_cons, List.mem_singleton] at hc
      rcases hc with rfl | hc
      · exact hexDigit_mem _
      · simp at hc
        rw [hc]
        exact hexDigit_mem _

theorem RandomHex_length (e : Nat → Nat) (n : Nat) :
    (RandomHex e n).length = 2 * n := by
  show (randomHexData e n).length = 2 * n
  exact randomHexData_length e n

theorem RandomHex_mem (e : Nat → Nat) (n : Nat) :
    ∀ c ∈ (RandomHex e n).data, c ∈ hexChars :=
  randomHexData_mem e n

/-- Abort at the "paymail address not found or invalid" gate (resolve.go:54-57). -/
theorem run_no_address (cfg : Config) (col : Collab) (now : String) (rhex : Nat → String)
    (h : (extractParts cfg.arg).2.length = 0) :
    run cfg col now rhex =
      ⟨[⟨.error, "paymail address not found or invalid"⟩], [], none⟩ := by
  unfold run
  simp [h]

/-- Abort at the receiver validation gate (resolve.go:60-62). -/
theorem run_validate_fail (cfg : Config) (col : Collab) (now : String) (rhex : Nat → String)
    {d pa : String} (h : extractParts cfg.arg = (d, pa)) (hpa : pa.length ≠ 0)
    (hv : col.validate pa d = false) :
    run cfg col now rhex = ⟨[], [], none⟩ := by
  unfold run
  simp [h, hpa, hv]

/-- With no sender handle configured, the run warns and proceeds with the
receiver's own address substituted for the sender (resolve.go:64-68). -/
theorem run_default_sender (cfg : Config) (col : Collab) (now : String) (rhex : Nat → String)
    {d pa : String} (h : extractParts cfg.arg = (d, pa)) (hpa : pa.length ≠ 0)
    (hv : col.validate pa d = true)
    (hs : (extractParts cfg.senderHandleFlag).2.length = 0) :
    run cfg col now rhex =
      discoveryPhase cfg col now rhex d pa d pa
        [⟨.warn, "--" ++ flagSenderHandle ++ " not set, using: " ++ pa⟩] := by
  obtain ⟨hpax, hidem⟩ := extractParts_snd h hpa
  unfold run
  simp [viperGetString_handle, h, hpa, hv, hs, hidem]

/-- With an explicit, validated sender handle, the run proceeds with it
(resolve.go:69-75). -/
theorem run_explicit_sender (cfg : Config) (col : Collab) (now : String) (rhex : Nat → String)
    {d pa sdom sh : String} (h : extractParts cfg.arg = (d, pa)) (hpa : pa.length ≠ 0)
    (hv : col.validate pa d = true)
    (hsd : extractParts cfg.senderHandleFlag = (sdom, sh)) (hsh : sh.length ≠ 0)
    (hv2 : col.validate sh sdom = true) :
    run cfg col now rhex = discoveryPhase cfg col now rhex d pa sdom sh [] := by
  unfold run
  simp [viperGetString_handle, h, hpa, hv, hsd, hsh, hv2]

/-- When the capability set does not declare sender validation, the branch is
skipped entirely (resolve.go:104). -/
theorem svp_flag_false (col : Collab) (rhex : Nat → String) (caps : CapabilitySet)
    (d pa sdom sh sig : String)
    (h : caps.GetValueBool BRFCSenderValidation "" = false) :
    senderValidationPhase col rhex caps d pa sdom sh sig = .ok ([], [], sig) := by
  unfold senderValidationPhase
  simp [h]

/-- When the sender handle coincides with the receiver address, the branch
makes no network call (resolve.go:116-117). -/
theorem svp_same_handle (col : Collab) (rhex : Nat → String) (caps : CapabilitySet)
    (d pa sdom sig : String)
    (h : caps.GetValueBool BRFCSenderValidation "" = true) :
    senderValidationPhase col rhex caps d pa sdom pa sig =
      .ok ((if sig.length = 0 then
              [⟨.warn, "sender validation is ENFORCED"⟩,
               ⟨.error, "missing required flag: --signature - see the help section: -h"⟩,
               ⟨.warn, "attempting to fake a signature for: " ++ pa ++ "..."⟩]
            else [⟨.warn, "sender validation is ENFORCED"⟩]) ++
             [⟨.success, "send request pre-validation: passed"⟩],
           [],
           if sig.length = 0 then rhex 64 else sig) := by
  unfold senderValidationPhase
  by_cases hs : sig.length = 0 <;> simp [h, hs]

/-- The sender-validation branch performs no network call, only a discovery
call, or a discovery call followed by a PKI call. -/
theorem svCalls_cases (col : Collab) (rhex : Nat → String) (caps : CapabilitySet)
    (d pa sdom sh sig : String) :
    svCalls (senderValidationPhase col rhex caps d pa sdom sh sig) = [] ∨
    svCalls (senderValidationPhase col rhex caps d pa sdom sh sig) =
      [NetCall.discover sdom] ∨
    ∃ u p0 p1,
      svCalls (senderValidationPhase col rhex caps d pa sdom sh sig) =
        [NetCall.discover sdom, NetCall.pki u p0 p1] := by
  unfold senderValidationPhase
  by_cases hf : caps.GetValueBool BRFCSenderValidation "" = true
  case neg => simp [hf, svCalls]
  simp only [hf, if_true]
  by_cases hne : sh = pa
  · simp [hne, svCalls]
  · simp only [ne_eq, hne, not_false_eq_true, if_true]
    rcases hc : col.getCapabilities sdom with e | sc
    · simp only [hc]
      split <;> simp [svCalls]
    · simp only [hc]
      by_cases hu : (sc.GetValueString BRFCPki BRFCPkiAlternate).length = 0
      · simp [hu, svCalls]
      · simp only [hu, if_false]
        rcases hp : col.getPki (sc.GetValueString BRFCPki BRFCPkiAlternate)
            (part0 sh) (part1 sh) with e | sp
        · simp only [hp]
          exact Or.inr (Or.inr ⟨_, _, _, rfl⟩)
        · rcases sp with _ | spv <;> simp only [hp] <;>
            exact Or.inr (Or.inr ⟨_, _, _, rfl⟩)

/-- The sender-validation branch never performs an address-resolution call and
performs at most one discovery and one PKI call. -/
theorem svp_calls_bound (col : Collab) (rhex : Nat → String) (caps : CapabilitySet)
    (d pa sdom sh sig : String) :
    (svCalls (senderValidationPhase col rhex caps d pa sdom sh sig)).countP
        NetCall.isResolve = 0 ∧
    (svCalls (senderValidationPhase col rhex caps d pa sdom sh sig)).countP
        NetCall.isDiscover ≤ 1 ∧
    (svCalls (senderValidationPhase col rhex caps d pa sdom sh sig)).countP
        NetCall.isPki ≤ 1 := by
  rcases svCalls_cases col rhex caps d pa sdom sh sig with h | h | ⟨u, p0, p1, h⟩ <;>
    simp [h, List.countP, List.countP.go, NetCall.isResolve, NetCall.isDiscover,
      NetCall.isPki]

/-- When sender validation is enforced and no signature was supplied, the
branch logs the enforcement warning, the missing-flag error and the
fake-signature warning, always emits at least one further log line (it
continues rather than aborting at that point), and any signature it hands on
is the synthesized one. -/
theorem svp_nosig (col : Collab) (rhex : Nat → String) (caps : CapabilitySet)
    (d pa sdom sh sig : String)
    (hf : caps.GetValueBool BRFCSenderValidation "" = true)
    (hsig : sig.length = 0) :
    (∃ rest,
      svLogs (senderValidationPhase col rhex caps d pa sdom sh sig) =
        ⟨.warn, "sender validation is ENFORCED"⟩ ::
        ⟨.error, "missing required flag: --signature - see the help section: -h"⟩ ::
        ⟨.warn, "attempting to fake a signature for: " ++ sh ++ "..."⟩ :: rest ∧
      rest ≠ []) ∧
    ∀ l c s, senderValidationPhase col rhex caps d pa sdom sh sig = .ok (l, c, s) →
      s = rhex 64 := by
  unfold senderValidationPhase
  simp only [hf, if_true, hsig, ite_true]
  by_cases hne : sh = pa
  · simp only [hne, ne_eq, not_true_eq_false, if_false]
    exact ⟨⟨[⟨.success, "send request pre-validation: passed"⟩],
      by simp [svLogs], by simp⟩, by intro l c s hh; cases hh; rfl⟩
  · simp only [ne_eq, hne, not_false_eq_true, if_true]
    rcases hc : col.getCapabilities sdom with e | sc
    · simp only [hc]
      split
      · exact ⟨⟨[⟨.warn, "no capabilities found for: " ++ d⟩],
          by simp [svLogs], by simp⟩, by intro l c s hh; cases hh⟩
      · exact ⟨⟨[⟨.error, "error: " ++ e⟩],
          by simp [svLogs], by simp⟩, by intro l c s hh; cases hh⟩
    · simp only [hc]
      by_cases hu : (sc.GetValueString BRFCPki BRFCPkiAlternate).length = 0
      · simp only [hu, if_true]
        exact ⟨⟨[⟨.error, sdom ++ " is missing a required capability: " ++ BRFCPki⟩],
          by simp [svLogs], by simp⟩, by intro l c s hh; cases hh⟩
      · simp only [hu, if_false]
        rcases hp : col.getPki (sc.GetValueString BRFCPki BRFCPkiAlternate)
            (part0 sh) (part1 sh) with e | sp
        · simp only [hp]
          exact ⟨⟨[⟨.error, "error: " ++ e⟩],
            by simp [svLogs], by simp⟩, by intro l c s hh; cases hh⟩
        · rcases sp with _ | spv <;> simp only [hp]
          · exact ⟨⟨[⟨.success, "send request pre-validation: passed"⟩],
              by simp [svLogs], by simp⟩, by intro l c s hh; cases hh; rfl⟩
          · exact ⟨⟨[⟨.info,
                "--" ++ flagSenderHandle ++ " " ++ part0 sh ++ "@" ++
                  part1 sh ++ "\x27s pubkey: " ++ spv.PubKey⟩,
              ⟨.success, "send request pre-validation: passed"⟩],
              by simp [svLogs], by simp⟩, by intro l c s hh; cases hh; rfl⟩

/-- The later phases only append to the logs and calls accumulated so far. -/
theorem resolvePhase_frame (cfg : Config) (col : Collab) (now : String)
    (caps : CapabilitySet) (pkiUrl resolveUrl domain pa sh sig : String)
    (logs : List LogEvent) (calls : List NetCall) :
    resolvePhase cfg col now caps pkiUrl resolveUrl domain pa sh sig logs calls =
      { logs :=
          logs ++ (resolvePhase cfg col now caps pkiUrl resolveUrl domain pa sh sig [] []).logs
        calls :=
          calls ++ (resolvePhase cfg col now caps pkiUrl resolveUrl domain pa sh sig [] []).calls
        output :=
          (resolvePhase cfg col now caps pkiUrl resolveUrl domain pa sh sig [] []).output } := by
  simp only [resolvePhase]
  rcases hp : col.getPki pkiUrl (part0 pa) domain with e | pki
  · simp [hp]
  · simp only [hp]
    rcases hr : col.addressResolution resolveUrl (part0 pa) domain
        (mkSenderRequest cfg now sh sig) with e | rr
    · simp [hr]
    · simp only [hr]
      by_cases hb :
          (decide ((caps.GetValueString BRFCPublicProfile "").length > 0) &&
            !cfg.skipPublicProfile) = true
      · simp only [hb, if_true]
        rcases hpp : col.getPublicProfile (caps.GetValueString BRFCPublicProfile "")
            (part0 pa) domain with e | op
        · rcases pki with _ | p <;> simp [hpp] <;> split_ifs <;> simp
        · rcases op with _ | pr <;> rcases pki with _ | p <;> simp [hpp] <;>
            split_ifs <;> simp
      · simp only [hb, if_false]
        rcases pki with _ | p <;> simp <;> split_ifs <;> simp

/-- The calls of the later phases: the receiver PKI call, then possibly the
resolution call, then possibly the profile call. -/
theorem resolvePhase_calls (cfg : Config) (col : Collab) (now : String)
    (caps : CapabilitySet) (pkiUrl resolveUrl domain pa sh sig : String)
    (logs : List LogEvent) (calls : List NetCall) :
    (resolvePhase cfg col now caps pkiUrl resolveUrl domain pa sh sig logs calls).calls =
        calls ++ [NetCall.pki pkiUrl (part0 pa) domain] ∨
    (resolvePhase cfg col now caps pkiUrl resolveUrl domain pa sh sig logs calls).calls =
        calls ++
          [NetCall.pki pkiUrl (part0 pa) domain,
           NetCall.resolve resolveUrl (part0 pa) domain (mkSenderRequest cfg now sh sig)] ∨
    (resolvePhase cfg col now caps pkiUrl resolveUrl domain pa sh sig logs calls).calls =
        calls ++
          [NetCall.pki pkiUrl (part0 pa) domain,
           NetCall.resolve resolveUrl (part0 pa) domain (mkSenderRequest cfg now sh sig),
           NetCall.profile (caps.GetValueString BRFCPublicProfile "") (part0 pa) domain] := by
  simp only [resolvePhase]
  rcases hp : col.getPki pkiUrl (part0 pa) domain with e | pki
  · simp [hp]
  · simp only [hp]
    rcases hr : col.addressResolution resolveUrl (part0 pa) domain
        (mkSenderRequest cfg now sh sig) with e | rr
    · simp [hr]
    · simp only [hr]
      by_cases hb :
          (decide ((caps.GetValueString BRFCPublicProfile "").length > 0) &&
            !cfg.skipPublicProfile) = true
      · simp only [hb, if_true]
        rcases hpp : col.getPublicProfile (caps.GetValueString BRFCPublicProfile "")
            (part0 pa) domain with e | op
        · simp [hpp]
        · rcases op with _ | pr <;> simp [hpp, List.append_assoc]
      · simp [hb]

/-- Abort at the sender validation gate (resolve.go:72-74). -/
theorem run_sender_invalid (cfg : Config) (col : Collab) (now : String) (rhex : Nat → String)
    {d pa sdom sh : String} (h : extractParts cfg.arg = (d, pa)) (hpa : pa.length ≠ 0)
    (hv : col.validate pa d = true)
    (hsd : extractParts cfg.senderHandleFlag = (sdom, sh)) (hsh : sh.length ≠ 0)
    (hv2 : col.validate sh sdom = false) :
    run cfg col now rhex = ⟨[], [], none⟩ := by
  unfold run
  simp [viperGetString_handle, h, hpa, hv, hsd, hsh, hv2]

/-- The sender-validation branch behaves identically under two random hex
sources, except possibly for the synthesized signature value, which can only
differ when the caller supplied no signature. -/
theorem svp_congr (col : Collab) (rhex1 rhex2 : Nat → String) (caps : CapabilitySet)
    (d pa sdom sh sig : String) :
    (∃ l c, senderValidationPhase col rhex1 caps d pa sdom sh sig = .error (l, c) ∧
        senderValidationPhase col rhex2 caps d pa sdom sh sig = .error (l, c)) ∨
    (∃ l c s1 s2, senderValidationPhase col rhex1 caps d pa sdom sh sig = .ok (l, c, s1) ∧
        senderValidationPhase col rhex2 caps d pa sdom sh sig = .ok (l, c, s2) ∧
        (sig.length ≠ 0 → s1 = s2)) := by
  simp only [senderValidationPhase]
  repeat' split
  all_goals
    first
    | exact Or.inl ⟨_, _, rfl, rfl⟩
    | exact Or.inr ⟨_, _, _, _, rfl, rfl, fun _ => rfl⟩
    | exact Or.inr ⟨_, _, _, _, rfl, rfl, fun hh => absurd ‹sig.length = 0› hh⟩

/-- The later phases behave identically under two timestamps and two
signatures: same logs, same resolved output, and the same calls up to the
`dt` and signature fields of the outgoing resolution request — provided the
address-resolution collaborator is insensitive to those two fields. -/
theorem resolvePhase_congr (cfg : Config) (col : Collab) (n1 n2 : String)
    (caps : CapabilitySet) (pkiUrl resolveUrl domain pa sh s1 s2 : String)
    (logs : List LogEvent) (calls : List NetCall)
    (hIns : ∀ u a dd r1 r2, reqErase r1 = reqErase r2 →
      col.addressResolution u a dd r1 = col.addressResolution u a dd r2) :
    (resolvePhase cfg col n1 caps pkiUrl resolveUrl domain pa sh s1 logs calls).logs =
        (resolvePhase cfg col n2 caps pkiUrl resolveUrl domain pa sh s2 logs calls).logs ∧
    (resolvePhase cfg col n1 caps pkiUrl resolveUrl domain pa sh s1 logs calls).output =
        (resolvePhase cfg col n2 caps pkiUrl resolveUrl domain pa sh s2 logs calls).output ∧
    (resolvePhase cfg col n1 caps pkiUrl resolveUrl domain pa sh s1 logs calls).calls.map
          callCore =
        (resolvePhase cfg col n2 caps pkiUrl resolveUrl domain pa sh s2 logs calls).calls.map
          callCore ∧
    (s1 = s2 →
      (resolvePhase cfg col n1 caps pkiUrl resolveUrl domain pa sh s1 logs calls).calls.map
          callCoreDt =
        (resolvePhase cfg col n2 caps pkiUrl resolveUrl domain pa sh s2 logs calls).calls.map
          callCoreDt) := by
  have key : col.addressResolution resolveUrl (part0 pa) domain
      (mkSenderRequest cfg n1 sh s1) =
      col.addressResolution resolveUrl (part0 pa) domain (mkSenderRequest cfg n2 sh s2) :=
    hIns _ _ _ _ _ rfl
  simp only [resolvePhase]
  rcases hp : col.getPki pkiUrl (part0 pa) domain with e | pki
  · simp [hp]
  · simp only [hp]
    rcases hr : col.addressResolution resolveUrl (part0 pa) domain
        (mkSenderRequest cfg n1 sh s1) with e | rr
    · have hr2 := key.symm.trans hr
      simp only [hr, hr2]
      refine ⟨by simp, by simp, by simp [callCore, reqErase, mkSenderRequest], ?_⟩
      intro hs
      subst hs
      simp [callCoreDt, reqEraseDt, mkSenderRequest]
    · have hr2 := key.symm.trans hr
      simp only [hr, hr2]
      repeat' split
      all_goals
        refine ⟨by simp, by simp, by simp [callCore, reqErase, mkSenderRequest], ?_⟩
      all_goals
        intro hs
      all_goals
        subst hs
      all_goals
        simp [callCoreDt, reqEraseDt, mkSenderRequest]

/-- Discovery and everything after it behaves identically under two
timestamps and two random hex sources, except for the `dt` and signature
fields of the outgoing resolution request; the signature field can moreover
only differ when the caller supplied no signature. -/
theorem discoveryPhase_congr (cfg : Config) (col : Collab) (n1 n2 : String)
    (r1 r2 : Nat → String) (d pa sdom sh : String) (logs : List LogEvent)
    (hIns : ∀ u a dd q1 q2, reqErase q1 = reqErase q2 →
      col.addressResolution u a dd q1 = col.addressResolution u a dd q2) :
    (discoveryPhase cfg col n1 r1 d pa sdom sh logs).logs =
        (discoveryPhase cfg col n2 r2 d pa sdom sh logs).logs ∧
    (discoveryPhase cfg col n1 r1 d pa sdom sh logs).output =
        (discoveryPhase cfg col n2 r2 d pa sdom sh logs).output ∧
    (discoveryPhase cfg col n1 r1 d pa sdom sh logs).calls.map callCore =
        (discoveryPhase cfg col n2 r2 d pa sdom sh logs).calls.map callCore ∧
    (cfg.signature.length ≠ 0 →
      (discoveryPhase cfg col n1 r1 d pa sdom sh logs).calls.map callCoreDt =
        (discoveryPhase cfg col n2 r2 d pa sdom sh logs).calls.map callCoreDt) := by
  simp only [discoveryPhase]
  rcases hc : col.getCapabilities d with e | caps
  · simp [hc]
  · simp only [hc]
    by_cases h1 : (caps.GetValueString BRFCPki BRFCPkiAlternate).length = 0
    · simp [h1]
    · simp only [if_neg h1]
      by_cases h2 :
          (caps.GetValueString BRFCPaymentDestination BRFCBasicAddressResolution).length = 0
      · simp [h2]
      · simp only [if_neg h2]
        rcases svp_congr col r1 r2 caps d pa sdom sh cfg.signature with
          ⟨l, c, he1, he2⟩ | ⟨l, c, s1, s2, ho1, ho2, hss⟩
        · simp [he1, he2]
        · simp only [ho1, ho2]
          have hmain := resolvePhase_congr cfg col n1 n2 caps
            (caps.GetValueString BRFCPki BRFCPkiAlternate)
            (caps.GetValueString BRFCPaymentDestination BRFCBasicAddressResolution)
            d pa sh s1 s2 (logs ++ l) ([NetCall.discover d] ++ c) hIns
          exact ⟨hmain.1, hmain.2.1, hmain.2.2.1, fun hsg => hmain.2.2.2 (hss hsg)⟩

/-- A run that passes the receiver gates continues as `discoveryPhase`, with
the sender handle either defaulted to the receiver address (after a warning)
or taken from the validated explicit flag. -/
theorem run_eq_discovery (cfg : Config) (col : Collab) (now : String) (rhex : Nat → String)
    {d pa sdom sh : String} (hx : extractParts cfg.arg = (d, pa)) (hpa : pa.length ≠ 0)
    (hv : col.validate pa d = true)
    (hsend : ((extractParts cfg.senderHandleFlag).2.length = 0 ∧ sdom = d ∧ sh = pa) ∨
      (extractParts cfg.senderHandleFlag = (sdom, sh) ∧ sh.length ≠ 0 ∧
        col.validate sh sdom = true)) :
    ∃ logs0, run cfg col now rhex = discoveryPhase cfg col now rhex d pa sdom sh logs0 ∧
      (logs0 = [] ∨
        logs0 = [⟨.warn, "--" ++ flagSenderHandle ++ " not set, using: " ++ pa⟩]) := by
  rcases hsend with ⟨h0, rfl, rfl⟩ | ⟨hsd, hsh, hv2⟩
  · exact ⟨_, run_default_sender cfg col now rhex hx hpa hv h0, Or.inr rfl⟩
  · exact ⟨[], run_explicit_sender cfg col now rhex hx hpa hv hsd hsh hv2, Or.inl rfl⟩

/-- The run never reads the `--skip-pki` flag: flipping it changes nothing. -/
theorem run_skipPki_irrelevant (cfg : Config) (col : Collab) (now : String)
    (rhex : Nat → String) (b : Bool) :
    run { cfg with skipPki := b } col now rhex = run cfg col now rhex := by
  cases cfg
  rfl

/-! ## Claim theorems -/

/-- C9: for every input receiver address lacking an `@` separator the run
aborts with the validation error and performs no network calls, and for every
address failing the validation gate the run likewise aborts with no network
calls — no discovery, PKI, resolution or profile call. -/
theorem validationGateNoNetworkCalls (cfg : Config) (col : Collab) (now : String)
    (rhex : Nat → String) :
    ((strSplit cfg.arg '@').length ≤ 1 →
      run cfg col now rhex =
        ⟨[⟨.error, "paymail address not found or invalid"⟩], [], none⟩) ∧
    (∀ d pa, extractParts cfg.arg = (d, pa) → col.validate pa d = false →
      (run cfg col now rhex).calls = [] ∧ (run cfg col now rhex).output = none) := by
  constructor
  · intro h1
    have hx : extractParts cfg.arg = (cfg.arg, "") := by
      simp only [extractParts]
      rw [if_pos h1]
    exact run_no_address cfg col now rhex (by rw [hx]; rfl)
  · intro d pa hx hv
    by_cases hpa : pa.length = 0
    · rw [run_no_address cfg col now rhex (by rw [hx]; exact hpa)]
      exact ⟨rfl, rfl⟩
    · rw [run_validate_fail cfg col now rhex hx hpa hv]
      exact ⟨rfl, rfl⟩

/-- Witness for C9 at a concrete address without `@`. -/
theorem validationGateNoNetworkCallsWitness :
    run cfgNoAt colW "t" rhex0 =
      ⟨[⟨.error, "paymail address not found or invalid"⟩], [], none⟩ :=
  (validationGateNoNetworkCalls cfgNoAt colW "t" rhex0).1 (by decide)

/-- C4: when receiver capability discovery fails, a deadline-exceeded error is
reported as a "no capabilities found" warning naming the receiver's domain,
any other error is reported verbatim at error level, and in both cases the
run aborts after the single discovery call. -/
theorem receiverDiscoveryErrorReporting (cfg : Config) (col : Collab) (now : String)
    (rhex : Nat → String) (d pa sdom sh e : String)
    (hx : extractParts cfg.arg = (d, pa)) (hpa : pa.length ≠ 0)
    (hv : col.validate pa d = true)
    (hsend : ((extractParts cfg.senderHandleFlag).2.length = 0 ∧ sdom = d ∧ sh = pa) ∨
      (extractParts cfg.senderHandleFlag = (sdom, sh) ∧ sh.length ≠ 0 ∧
        col.validate sh sdom = true))
    (hcaps : col.getCapabilities d = .error e) :
    (run cfg col now rhex).calls = [NetCall.discover d] ∧
    (run cfg col now rhex).output = none ∧
    (containsSub e deadlineExceededMsg = true →
      ∃ pre, (run cfg col now rhex).logs =
        pre ++ [⟨.warn, "no capabilities found for: " ++ d⟩]) ∧
    (containsSub e deadlineExceededMsg = false →
      ∃ pre, (run cfg col now rhex).logs = pre ++ [⟨.error, "error: " ++ e⟩]) := by
  obtain ⟨logs0, hrun, -⟩ := run_eq_discovery cfg col now rhex hx hpa hv hsend
  rw [hrun]
  simp only [discoveryPhase, hcaps]
  by_cases hdl : containsSub e deadlineExceededMsg = true
  · rw [if_pos hdl]
    exact ⟨rfl, rfl, fun _ => ⟨logs0, rfl⟩, fun hco => absurd hdl (by simp [hco])⟩
  · rw [if_neg hdl]
    exact ⟨rfl, rfl, fun hco => absurd hco hdl, fun _ => ⟨logs0, rfl⟩⟩

/-- Witness for C4 at a concrete failing discovery. -/
theorem receiverDiscoveryErrorReportingWitness :
    (run cfgW colDiscErr "t" rhex0).calls = [NetCall.discover "example.com"] ∧
    (run cfgW colDiscErr "t" rhex0).output = none ∧
    (containsSub "boom" deadlineExceededMsg = true →
      ∃ pre, (run cfgW colDiscErr "t" rhex0).logs =
        pre ++ [⟨.warn, "no capabilities found for: " ++ "example.com"⟩]) ∧
    (containsSub "boom" deadlineExceededMsg = false →
      ∃ pre, (run cfgW colDiscErr "t" rhex0).logs =
        pre ++ [⟨.error, "error: " ++ "boom"⟩]) :=
  receiverDiscoveryErrorReporting cfgW colDiscErr "t" rhex0 "example.com"
    "alice@example.com" "other.com" "bob@other.com" "boom" (by decide) (by decide) rfl
    (Or.inr ⟨by decide, by decide, rfl⟩) rfl

/-- C1, counterexample: a discovered capability set lacking the resolution
endpoint whose abort error does not name the resolution endpoint identifier —
because it also lacks PKI, and the PKI check runs first, so the error names
`BRFCPki` instead. -/
theorem missingResolutionCounterexample :
    CapabilitySet.GetValueString [] BRFCPaymentDestination BRFCBasicAddressResolution
        = "" ∧
    colCapsEmpty.getCapabilities "example.com" = .ok [] ∧
    (run cfgW colCapsEmpty "t" rhex0).output = none ∧
    ⟨.error, "example.com is missing a required capability: " ++ BRFCPaymentDestination⟩ ∉
      (run cfgW colCapsEmpty "t" rhex0).logs ∧
    (run cfgW colCapsEmpty "t" rhex0).logs =
      [⟨.error, "example.com is missing a required capability: " ++ BRFCPki⟩] := by
  refine ⟨rfl, rfl, ?_, ?_, ?_⟩ <;> decide

/-- C1 (amended): if the discovered receiver capability set contains a PKI
endpoint but lacks a payment-destination/basic-address-resolution endpoint
(`GetValueString` on the primary and alternate identifiers empty), the run
aborts with the missing-required-capability error naming the
payment-destination identifier, regardless of other capabilities present. -/
theorem missingResolutionCapabilityAborts (cfg : Config) (col : Collab) (now : String)
    (rhex : Nat → String) (d pa sdom sh : String) (caps : CapabilitySet)
    (hx : extractParts cfg.arg = (d, pa)) (hpa : pa.length ≠ 0)
    (hv : col.validate pa d = true)
    (hsend : ((extractParts cfg.senderHandleFlag).2.length = 0 ∧ sdom = d ∧ sh = pa) ∨
      (extractParts cfg.senderHandleFlag = (sdom, sh) ∧ sh.length ≠ 0 ∧
        col.validate sh sdom = true))
    (hcaps : col.getCapabilities d = .ok caps)
    (hpki : (caps.GetValueString BRFCPki BRFCPkiAlternate).length ≠ 0)
    (hres : caps.GetValueString BRFCPaymentDestination BRFCBasicAddressResolution = "") :
    (run cfg col now rhex).output = none ∧
    (run cfg col now rhex).calls = [NetCall.discover d] ∧
    ∃ pre, (run cfg col now rhex).logs =
      pre ++ [⟨.error, d ++ " is missing a required capability: " ++ BRFCPaymentDestination⟩] := by
  obtain ⟨logs0, hrun, -⟩ := run_eq_discovery cfg col now rhex hx hpa hv hsend
  rw [hrun]
  simp only [discoveryPhase, hcaps]
  rw [if_neg hpki, if_pos (by rw [hres]; rfl)]
  exact ⟨rfl, rfl, logs0, rfl⟩

/-- Witness for the amended C1 at a concrete capability set. -/
theorem missingResolutionCapabilityAbortsWitness :
    (run cfgW colNoRes "t" rhex0).output = none ∧
    (run cfgW colNoRes "t" rhex0).calls = [NetCall.discover "example.com"] ∧
    ∃ pre, (run cfgW colNoRes "t" rhex0).logs =
      pre ++
        [⟨.error,
          "example.com" ++ " is missing a required capability: " ++ BRFCPaymentDestination⟩] :=
  missingResolutionCapabilityAborts cfgW colNoRes "t" rhex0 "example.com"
    "alice@example.com" "other.com" "bob@other.com" [(BRFCPki, .str "https://pki")]
    (by decide) (by decide) rfl (Or.inr ⟨by decide, by decide, rfl⟩) rfl (by decide) (by decide)

/-- C7: for runs that pass the required-capability checks and the
sender-validation branch, the receiver PKI fetch is performed with the
receiver's alias and domain regardless of the `--skip-pki` flag, and a
transport error from it is surfaced verbatim and aborts the run before any
resolution call. -/
theorem receiverPkiLookup (cfg : Config) (col : Collab) (now : String)
    (rhex : Nat → String) (d pa sdom sh : String) (caps : CapabilitySet)
    (l2 : List LogEvent) (c2 : List NetCall) (s : String)
    (hx : extractParts cfg.arg = (d, pa)) (hpa : pa.length ≠ 0)
    (hv : col.validate pa d = true)
    (hsend : ((extractParts cfg.senderHandleFlag).2.length = 0 ∧ sdom = d ∧ sh = pa) ∨
      (extractParts cfg.senderHandleFlag = (sdom, sh) ∧ sh.length ≠ 0 ∧
        col.validate sh sdom = true))
    (hcaps : col.getCapabilities d = .ok caps)
    (hpki : (caps.GetValueString BRFCPki BRFCPkiAlternate).length ≠ 0)
    (hres : (caps.GetValueString BRFCPaymentDestination BRFCBasicAddressResolution).length ≠ 0)
    (hsv : senderValidationPhase col rhex caps d pa sdom sh cfg.signature = .ok (l2, c2, s)) :
    (∀ b, run { cfg with skipPki := b } col now rhex = run cfg col now rhex) ∧
    NetCall.pki (caps.GetValueString BRFCPki BRFCPkiAlternate) (part0 pa) d ∈
      (run cfg col now rhex).calls ∧
    (∀ e, col.getPki (caps.GetValueString BRFCPki BRFCPkiAlternate) (part0 pa) d = .error e →
      (run cfg col now rhex).output = none ∧
      (∃ pre, (run cfg col now rhex).logs = pre ++ [⟨.error, "error: " ++ e⟩]) ∧
      (run cfg col now rhex).calls.countP NetCall.isResolve = 0) := by
  obtain ⟨logs0, hrun, -⟩ := run_eq_discovery cfg col now rhex hx hpa hv hsend
  refine ⟨fun b => run_skipPki_irrelevant cfg col now rhex b, ?_, ?_⟩
  · rw [hrun]
    simp only [discoveryPhase, hcaps]
    rw [if_neg hpki, if_neg hres]
    simp only [hsv]
    rcases resolvePhase_calls cfg col now caps
        (caps.GetValueString BRFCPki BRFCPkiAlternate)
        (caps.GetValueString BRFCPaymentDestination BRFCBasicAddressResolution)
        d pa sh s (logs0 ++ l2) ([NetCall.discover d] ++ c2) with hc | hc | hc <;>
      rw [hc] <;> simp
  · intro e hpe
    rw [hrun]
    simp only [discoveryPhase, hcaps]
    rw [if_neg hpki, if_neg hres]
    simp only [hsv]
    simp only [resolvePhase, hpe]
    refine ⟨by trivial, ⟨logs0 ++ l2, by simp⟩, ?_⟩
    have hsc := svCalls_cases col rhex caps d pa sdom sh cfg.signature
    rw [hsv] at hsc
    simp only [svCalls] at hsc
    rcases hsc with hcc | hcc | ⟨u, p0, p1, hcc⟩ <;> subst hcc <;>
      simp [List.countP_append, List.countP, List.countP.go, NetCall.isResolve]

/-- Witness for C7 at a fully successful concrete run. -/
theorem receiverPkiLookupWitness :
    NetCall.pki "https://pki" "alice" "example.com" ∈ (run cfgW colW "t" rhex0).calls :=
  (receiverPkiLookup cfgW colW "t" rhex0 "example.com" "alice@example.com" "other.com"
    "bob@other.com" capsW
    [⟨.warn, "sender validation is ENFORCED"⟩,
     ⟨.info, "--sender-handle bob@other.com\x27s pubkey: 02aabb"⟩,
     ⟨.success, "send request pre-validation: passed"⟩]
    [NetCall.discover "other.com", NetCall.pki "https://pki" "bob" "other.com"]
    "sig0" (by decide) (by decide) rfl (Or.inr ⟨by decide, by decide, rfl⟩) rfl
    (by decide) (by decide) rfl).2.1

/-- C5, counterexample: with a distinct sender domain whose discovery times
out, the deadline warning names the receiver's domain (`example.com`), not
the sender's domain (`other.com`) that was being discovered. -/
theorem senderDiscoveryWarnNamesReceiverDomain :
    colC5.getCapabilities "other.com" = .error deadlineExceededMsg ∧
    ⟨.warn, "no capabilities found for: " ++ "example.com"⟩ ∈
      (run cfgW colC5 "t" rhex0).logs ∧
    ⟨.warn, "no capabilities found for: " ++ "other.com"⟩ ∉
      (run cfgW colC5 "t" rhex0).logs := by
  refine ⟨rfl, ?_, ?_⟩ <;> decide

/-- C5 (amended): in the sender-validation branch with a distinct sender
handle, a deadline-exceeded error from the sender-domain discovery produces
the "no capabilities found" warning naming the receiver's domain (the
receiver's domain variable is reused at resolve.go:123), any other error is
reported verbatim at error level, and either way the whole resolution aborts
after the two discovery calls. -/
theorem senderDiscoveryErrorReporting (cfg : Config) (col : Collab) (now : String)
    (rhex : Nat → String) (d pa sdom sh e : String) (caps : CapabilitySet)
    (hx : extractParts cfg.arg = (d, pa)) (hpa : pa.length ≠ 0)
    (hv : col.validate pa d = true)
    (hsd : extractParts cfg.senderHandleFlag = (sdom, sh)) (hsh : sh.length ≠ 0)
    (hv2 : col.validate sh sdom = true)
    (hcaps : col.getCapabilities d = .ok caps)
    (hpki : (caps.GetValueString BRFCPki BRFCPkiAlternate).length ≠ 0)
    (hres : (caps.GetValueString BRFCPaymentDestination BRFCBasicAddressResolution).length ≠ 0)
    (hflag : caps.GetValueBool BRFCSenderValidation "" = true)
    (hne : sh ≠ pa)
    (hsc : col.getCapabilities sdom = .error e) :
    (run cfg col now rhex).output = none ∧
    (run cfg col now rhex).calls = [NetCall.discover d, NetCall.discover sdom] ∧
    (containsSub e deadlineExceededMsg = true →
      ∃ pre, (run cfg col now rhex).logs =
        pre ++ [⟨.warn, "no capabilities found for: " ++ d⟩]) ∧
    (containsSub e deadlineExceededMsg = false →
      ∃ pre, (run cfg col now rhex).logs = pre ++ [⟨.error, "error: " ++ e⟩]) := by
  rw [run_explicit_sender cfg col now rhex hx hpa hv hsd hsh hv2]
  simp only [discoveryPhase, hcaps]
  rw [if_neg hpki, if_neg hres]
  by_cases hsig : cfg.signature.length = 0
  · by_cases hdl : containsSub e deadlineExceededMsg = true
    · simp only [senderValidationPhase, if_pos hflag, if_pos hsig, if_pos hne, hsc,
        if_pos hdl, List.nil_append]
      refine ⟨by trivial, by trivial, fun _ =>
        ⟨[⟨.warn, "sender validation is ENFORCED"⟩,
          ⟨.error, "missing required flag: --signature - see the help section: -h"⟩,
          ⟨.warn, "attempting to fake a signature for: " ++ sh ++ "..."⟩], by simp⟩,
        fun hco => absurd hdl (by simp [hco])⟩
    · simp only [senderValidationPhase, if_pos hflag, if_pos hsig, if_pos hne, hsc,
        if_neg hdl, List.nil_append]
      refine ⟨by trivial, by trivial, fun hco => absurd hco hdl, fun _ =>
        ⟨[⟨.warn, "sender validation is ENFORCED"⟩,
          ⟨.error, "missing required flag: --signature - see the help section: -h"⟩,
          ⟨.warn, "attempting to fake a signature for: " ++ sh ++ "..."⟩], by simp⟩⟩
  · by_cases hdl : containsSub e deadlineExceededMsg = true
    · simp only [senderValidationPhase, if_pos hflag, if_neg hsig, if_pos hne, hsc,
        if_pos hdl, List.nil_append]
      refine ⟨by trivial, by trivial, fun _ =>
        ⟨[⟨.warn, "sender validation is ENFORCED"⟩], by simp⟩,
        fun hco => absurd hdl (by simp [hco])⟩
    · simp only [senderValidationPhase, if_pos hflag, if_neg hsig, if_pos hne, hsc,
        if_neg hdl, List.nil_append]
      refine ⟨by trivial, by trivial, fun hco => absurd hco hdl, fun _ =>
        ⟨[⟨.warn, "sender validation is ENFORCED"⟩], by simp⟩⟩

/-- Witness for the amended C5 at a concrete timed-out sender discovery. -/
theorem senderDiscoveryErrorReportingWitness :
    (run cfgW colC5 "t" rhex0).output = none ∧
    (run cfgW colC5 "t" rhex0).calls =
      [NetCall.discover "example.com", NetCall.discover "other.com"] ∧
    (containsSub deadlineExceededMsg deadlineExceededMsg = true →
      ∃ pre, (run cfgW colC5 "t" rhex0).logs =
        pre ++ [⟨.warn, "no capabilities found for: " ++ "example.com"⟩]) ∧
    (containsSub deadlineExceededMsg deadlineExceededMsg = false →
      ∃ pre, (run cfgW colC5 "t" rhex0).logs =
        pre ++ [⟨.error, "error: " ++ deadlineExceededMsg⟩]) :=
  senderDiscoveryErrorReporting cfgW colC5 "t" rhex0 "example.com" "alice@example.com"
    "other.com" "bob@other.com" deadlineExceededMsg capsW (by decide) (by decide) rfl
    (by decide) (by decide) rfl rfl (by decide) (by decide) (by decide) (by decide) rfl

/-- C3: with no explicit sender handle configured, the receiver's paymail
address is substituted as the sender handle after a warning, and consequently
the run performs at most one capability-discovery call and at most one PKI
call — no sender-side discovery or sender PKI fetch — and every outgoing
resolution request carries the receiver's address as its sender handle. -/
theorem senderDefaultingNoSecondaryCalls (cfg : Config) (col : Collab) (now : String)
    (rhex : Nat → String) (d pa : String)
    (hx : extractParts cfg.arg = (d, pa)) (hpa : pa.length ≠ 0)
    (hv : col.validate pa d = true)
    (hs0 : (extractParts cfg.senderHandleFlag).2.length = 0) :
    (∃ rest, (run cfg col now rhex).logs =
      ⟨.warn, "--" ++ flagSenderHandle ++ " not set, using: " ++ pa⟩ :: rest) ∧
    (run cfg col now rhex).calls.countP NetCall.isDiscover ≤ 1 ∧
    (run cfg col now rhex).calls.countP NetCall.isPki ≤ 1 ∧
    (∀ u a dd r, NetCall.resolve u a dd r ∈ (run cfg col now rhex).calls →
      r.SenderHandle = pa) := by
  rw [run_default_sender cfg col now rhex hx hpa hv hs0]
  simp only [discoveryPhase]
  rcases hc : col.getCapabilities d with e | caps
  · simp only [hc]
    split <;>
      exact ⟨⟨_, rfl⟩,
        by simp [List.countP, List.countP.go, NetCall.isDiscover],
        by simp [List.countP, List.countP.go, NetCall.isPki],
        by simp⟩
  · simp only [hc]
    by_cases hpk : (caps.GetValueString BRFCPki BRFCPkiAlternate).length = 0
    · rw [if_pos hpk]
      exact ⟨⟨_, rfl⟩,
        by simp [List.countP, List.countP.go, NetCall.isDiscover],
        by simp [List.countP, List.countP.go, NetCall.isPki],
        by simp⟩
    · rw [if_neg hpk]
      by_cases hrs :
          (caps.GetValueString BRFCPaymentDestination BRFCBasicAddressResolution).length = 0
      · rw [if_pos hrs]
        exact ⟨⟨_, rfl⟩,
          by simp [List.countP, List.countP.go, NetCall.isDiscover],
          by simp [List.countP, List.countP.go, NetCall.isPki],
          by simp⟩
      · rw [if_neg hrs]
        have key : ∀ (l2 : List LogEvent) (sg : String),
            (∃ rest,
              (resolvePhase cfg col now caps (caps.GetValueString BRFCPki BRFCPkiAlternate)
                  (caps.GetValueString BRFCPaymentDestination BRFCBasicAddressResolution)
                  d pa pa sg
                  ([⟨.warn, "--" ++ flagSenderHandle ++ " not set, using: " ++ pa⟩] ++ l2)
                  ([NetCall.discover d] ++ [])).logs =
                ⟨.warn, "--" ++ flagSenderHandle ++ " not set, using: " ++ pa⟩ :: rest) ∧
            (resolvePhase cfg col now caps (caps.GetValueString BRFCPki BRFCPkiAlternate)
                (caps.GetValueString BRFCPaymentDestination BRFCBasicAddressResolution)
                d pa pa sg
                ([⟨.warn, "--" ++ flagSenderHandle ++ " not set, using: " ++ pa⟩] ++ l2)
                ([NetCall.discover d] ++ [])).calls.countP NetCall.isDiscover ≤ 1 ∧
            (resolvePhase cfg col now caps (caps.GetValueString BRFCPki BRFCPkiAlternate)
                (caps.GetValueString BRFCPaymentDestination BRFCBasicAddressResolution)
                d pa pa sg
                ([⟨.warn, "--" ++ flagSenderHandle ++ " not set, using: " ++ pa⟩] ++ l2)
                ([NetCall.discover d] ++ [])).calls.countP NetCall.isPki ≤ 1 ∧
            (∀ u a dd r, NetCall.resolve u a dd r ∈
                (resolvePhase cfg col now caps (caps.GetValueString BRFCPki BRFCPkiAlternate)
                  (caps.GetValueString BRFCPaymentDestination BRFCBasicAddressResolution)
                  d pa pa sg
                  ([⟨.warn, "--" ++ flagSenderHandle ++ " not set, using: " ++ pa⟩] ++ l2)
                  ([NetCall.discover d] ++ [])).calls →
              r.SenderHandle = pa) := by
          intro l2 sg
          rw [resolvePhase_frame]
          rcases resolvePhase_calls cfg col now caps
              (caps.GetValueString BRFCPki BRFCPkiAlternate)
              (caps.GetValueString BRFCPaymentDestination BRFCBasicAddressResolution)
              d pa pa sg [] [] with hcl | hcl | hcl
          · rw [hcl]
            exact ⟨⟨_, rfl⟩,
              by simp [List.countP_append, List.countP, List.countP.go, NetCall.isDiscover],
              by simp [List.countP_append, List.countP, List.countP.go, NetCall.isPki],
              by simp⟩
          · rw [hcl]
            refine ⟨⟨_, rfl⟩,
              by simp [List.countP_append, List.countP, List.countP.go, NetCall.isDiscover],
              by simp [List.countP_append, List.countP, List.countP.go, NetCall.isPki],
              ?_⟩
            intro u a dd r hmem
            simp only [List.nil_append, List.append_nil, List.mem_append, List.mem_cons,
              List.mem_singleton, List.not_mem_nil, or_false, false_or] at hmem
            rcases hmem with hmem | hmem
            · cases hmem
            · rcases hmem with hmem | hmem
              · cases hmem
              · cases hmem
                simp [mkSenderRequest]
          · rw [hcl]
            refine ⟨⟨_, rfl⟩,
              by simp [List.countP_append, List.countP, List.countP.go, NetCall.isDiscover],
              by simp [List.countP_append, List.countP, List.countP.go, NetCall.isPki],
              ?_⟩
            intro u a dd r hmem
            simp only [List.nil_append, List.append_nil, List.mem_append, List.mem_cons,
              List.mem_singleton, List.not_mem_nil, or_false, false_or] at hmem
            rcases hmem with hmem | hmem
            · cases hmem
            · rcases hmem with hmem | hmem
              · cases hmem
              · rcases hmem with hmem | hmem
                · cases hmem
                  simp [mkSenderRequest]
                · cases hmem
        rcases hfb : caps.GetValueBool BRFCSenderValidation "" with _ | _
        · rw [svp_flag_false col rhex caps d pa d pa cfg.signature hfb]
          exact key [] cfg.signature
        · rw [svp_same_handle col rhex caps d pa d cfg.signature hfb]
          exact key _ _

/-- Witness for C3 at a concrete run with no sender handle configured. -/
theorem senderDefaultingNoSecondaryCallsWitness :
    (run cfgNoSender colW "t" rhex0).calls.countP NetCall.isDiscover ≤ 1 ∧
    (run cfgNoSender colW "t" rhex0).calls.countP NetCall.isPki ≤ 1 :=
  ⟨(senderDefaultingNoSecondaryCalls cfgNoSender colW "t" rhex0 "example.com"
      "alice@example.com" (by decide) (by decide) rfl (by decide)).2.1,
   (senderDefaultingNoSecondaryCalls cfgNoSender colW "t" rhex0 "example.com"
      "alice@example.com" (by decide) (by decide) rfl (by decide)).2.2.1⟩

/-- C2: when the receiver's capability set declares sender validation and the
caller supplied no signature, the run emits the error naming the
`--signature` flag, synthesizes a placeholder signature of exactly 128
hexadecimal characters (64 bytes), and continues past this point rather than
aborting — the fake-signature warning is never the final log line — and any
outgoing resolution request carries the synthesized placeholder as its
signature. -/
theorem signaturePlaceholderSynthesis (cfg : Config) (col : Collab) (now : String)
    (ent : Nat → Nat) (d pa sdom sh : String) (caps : CapabilitySet)
    (hx : extractParts cfg.arg = (d, pa)) (hpa : pa.length ≠ 0)
    (hv : col.validate pa d = true)
    (hsend : ((extractParts cfg.senderHandleFlag).2.length = 0 ∧ sdom = d ∧ sh = pa) ∨
      (extractParts cfg.senderHandleFlag = (sdom, sh) ∧ sh.length ≠ 0 ∧
        col.validate sh sdom = true))
    (hcaps : col.getCapabilities d = .ok caps)
    (hpki : (caps.GetValueString BRFCPki BRFCPkiAlternate).length ≠ 0)
    (hres : (caps.GetValueString BRFCPaymentDestination BRFCBasicAddressResolution).length ≠ 0)
    (hflag : caps.GetValueBool BRFCSenderValidation "" = true)
    (hsig : cfg.signature.length = 0) :
    ⟨.error, "missing required flag: --signature - see the help section: -h"⟩ ∈
      (run cfg col now (RandomHex ent)).logs ∧
    (∃ pre post, (run cfg col now (RandomHex ent)).logs =
      pre ++ ⟨.warn, "attempting to fake a signature for: " ++ sh ++ "..."⟩ :: post ∧
      post ≠ []) ∧
    (RandomHex ent 64).length = 128 ∧
    (∀ c ∈ (RandomHex ent 64).data, c ∈ hexChars) ∧
    (∀ u a dd r, NetCall.resolve u a dd r ∈ (run cfg col now (RandomHex ent)).calls →
      r.Signature = RandomHex ent 64) := by
  obtain ⟨logs0, hrun, -⟩ := run_eq_discovery cfg col now (RandomHex ent) hx hpa hv hsend
  rw [hrun]
  simp only [discoveryPhase, hcaps]
  rw [if_neg hpki, if_neg hres]
  obtain ⟨⟨rest, hlogsv, hrestne⟩, hoksig⟩ :=
    svp_nosig col (RandomHex ent) caps d pa sdom sh cfg.signature hflag hsig
  have hlen : (RandomHex ent 64).length = 128 := by
    have := RandomHex_length ent 64
    simpa using this
  have hsvcalls := svCalls_cases col (RandomHex ent) caps d pa sdom sh cfg.signature
  rcases hsvp : senderValidationPhase col (RandomHex ent) caps d pa sdom sh cfg.signature
      with ⟨l2, c2⟩ | ⟨l2, c2, s⟩
  · rw [hsvp] at hlogsv hsvcalls
    simp only [svLogs, svCalls] at hlogsv hsvcalls
    simp only [hsvp]
    refine ⟨?_, ?_, hlen, RandomHex_mem ent 64, ?_⟩
    · rw [hlogsv]
      simp
    · exact ⟨logs0 ++
        [⟨.warn, "sender validation is ENFORCED"⟩,
         ⟨.error, "missing required flag: --signature - see the help section: -h"⟩],
        rest, by rw [hlogsv]; simp, hrestne⟩
    · intro u a dd r hmem
      rcases hsvcalls with hcc | hcc | ⟨uu, p0, p1, hcc⟩ <;> subst hcc <;>
        simp at hmem
  · have hs : s = RandomHex ent 64 := hoksig _ _ _ hsvp
    subst hs
    rw [hsvp] at hlogsv hsvcalls
    simp only [svLogs, svCalls] at hlogsv hsvcalls
    simp only [hsvp]
    rw [resolvePhase_frame]
    refine ⟨?_, ?_, hlen, RandomHex_mem ent 64, ?_⟩
    · rw [hlogsv]
      simp
    · exact ⟨logs0 ++
        [⟨.warn, "sender validation is ENFORCED"⟩,
         ⟨.error, "missing required flag: --signature - see the help section: -h"⟩],
        rest ++
          (resolvePhase cfg col now caps (caps.GetValueString BRFCPki BRFCPkiAlternate)
            (caps.GetValueString BRFCPaymentDestination BRFCBasicAddressResolution)
            d pa sh (RandomHex ent 64) [] []).logs,
        by rw [hlogsv]; simp, by simp [hrestne]⟩
    · intro u a dd r hmem
      rcases resolvePhase_calls cfg col now caps
          (caps.GetValueString BRFCPki BRFCPkiAlternate)
          (caps.GetValueString BRFCPaymentDestination BRFCBasicAddressResolution)
          d pa sh (RandomHex ent 64) [] [] with hcl | hcl | hcl <;>
        rw [hcl] at hmem <;>
        rcases hsvcalls with hcc | hcc | ⟨uu, p0, p1, hcc⟩ <;> subst hcc <;>
        try simp at hmem
      all_goals try obtain ⟨-, -, -, rfl⟩ := hmem
      all_goals simp [mkSenderRequest]

/-- Witness for C2 at a concrete enforced-validation run without signature. -/
theorem signaturePlaceholderSynthesisWitness :
    ⟨.error, "missing required flag: --signature - see the help section: -h"⟩ ∈
      (run cfgNoSig colW "t" (RandomHex ent0)).logs ∧
    (RandomHex ent0 64).length = 128 :=
  ⟨(signaturePlaceholderSynthesis cfgNoSig colW "t" ent0 "example.com" "alice@example.com"
      "other.com" "bob@other.com" capsW (by decide) (by decide) rfl
      (Or.inr ⟨by decide, by decide, rfl⟩) rfl (by decide) (by decide) (by decide)
      (by decide)).1,
   (signaturePlaceholderSynthesis cfgNoSig colW "t" ent0 "example.com" "alice@example.com"
      "other.com" "bob@other.com" capsW (by decide) (by decide) rfl
      (Or.inr ⟨by decide, by decide, rfl⟩) rfl (by decide) (by decide) (by decide)
      (by decide)).2.2.1⟩

/-- C6: a transport error from the public-profile fetch is reported but does
not abort the run: the final report still contains the receiver public key
(when present and non-empty), the resolved output script and the resolved
address, and the resolved output pair is still produced. -/
theorem profileErrorNonAborting (cfg : Config) (col : Collab) (now : String)
    (rhex : Nat → String) (d pa sdom sh : String) (caps : CapabilitySet)
    (l2 : List LogEvent) (c2 : List NetCall) (s : String)
    (pk : Option PKIResponse) (rr : AddressResolutionResponse) (pe : String)
    (hx : extractParts cfg.arg = (d, pa)) (hpa : pa.length ≠ 0)
    (hv : col.validate pa d = true)
    (hsend : ((extractParts cfg.senderHandleFlag).2.length = 0 ∧ sdom = d ∧ sh = pa) ∨
      (extractParts cfg.senderHandleFlag = (sdom, sh) ∧ sh.length ≠ 0 ∧
        col.validate sh sdom = true))
    (hcaps : col.getCapabilities d = .ok caps)
    (hpki : (caps.GetValueString BRFCPki BRFCPkiAlternate).length ≠ 0)
    (hres : (caps.GetValueString BRFCPaymentDestination BRFCBasicAddressResolution).length ≠ 0)
    (hsv : senderValidationPhase col rhex caps d pa sdom sh cfg.signature = .ok (l2, c2, s))
    (hpk : col.getPki (caps.GetValueString BRFCPki BRFCPkiAlternate) (part0 pa) d = .ok pk)
    (hrr : col.addressResolution
        (caps.GetValueString BRFCPaymentDestination BRFCBasicAddressResolution) (part0 pa) d
        (mkSenderRequest cfg now sh s) = .ok rr)
    (hurl : (caps.GetValueString BRFCPublicProfile "").length > 0)
    (hskip : cfg.skipPublicProfile = false)
    (hperr : col.getPublicProfile (caps.GetValueString BRFCPublicProfile "") (part0 pa) d =
      .error pe) :
    (run cfg col now rhex).output = some (rr.Output, rr.Address) ∧
    ⟨.error, "get public profile failed: " ++ pe⟩ ∈ (run cfg col now rhex).logs ∧
    ⟨.dflt, "output script: " ++ rr.Output⟩ ∈ (run cfg col now rhex).logs ∧
    ⟨.dflt, "address: " ++ rr.Address⟩ ∈ (run cfg col now rhex).logs ∧
    (∀ p, pk = some p → p.PubKey.length ≠ 0 →
      ⟨.dflt, "pubkey: " ++ p.PubKey⟩ ∈ (run cfg col now rhex).logs) := by
  obtain ⟨logs0, hrun, -⟩ := run_eq_discovery cfg col now rhex hx hpa hv hsend
  rw [hrun]
  simp only [discoveryPhase, hcaps]
  rw [if_neg hpki, if_neg hres]
  simp only [hsv]
  have hcond :
      (decide ((caps.GetValueString BRFCPublicProfile "").length > 0) &&
        !cfg.skipPublicProfile) = true := by
    simp [hurl, hskip]
  rcases pk with _ | p
  · simp only [resolvePhase, hpk, hrr, hcond, if_true, hperr]
    refine ⟨by trivial, by simp, by simp, by simp, ?_⟩
    intro p hp
    cases hp
  · by_cases hpb : p.PubKey.length > 0
    · simp only [resolvePhase, hpk, hrr, hcond, if_true, hperr, if_pos hpb]
      refine ⟨by trivial, by simp, by simp, by simp, ?_⟩
      intro q hq hlen
      cases hq
      simp
    · simp only [resolvePhase, hpk, hrr, hcond, if_true, hperr, if_neg hpb]
      refine ⟨by trivial, by simp, by simp, by simp, ?_⟩
      intro q hq hlen
      cases hq
      exact absurd (Nat.pos_of_ne_zero hlen) hpb

/-- Witness for C6 at a concrete failing profile fetch. -/
theorem profileErrorNonAbortingWitness :
    (run cfgW colProfErr "t" rhex0).output = some ("76a914", "1abc") ∧
    ⟨.error, "get public profile failed: " ++ "profboom"⟩ ∈
      (run cfgW colProfErr "t" rhex0).logs :=
  ⟨(profileErrorNonAborting cfgW colProfErr "t" rhex0 "example.com" "alice@example.com"
      "other.com" "bob@other.com" capsW
      [⟨.warn, "sender validation is ENFORCED"⟩,
       ⟨.info, "--sender-handle bob@other.com\x27s pubkey: 02aabb"⟩,
       ⟨.success, "send request pre-validation: passed"⟩]
      [NetCall.discover "other.com", NetCall.pki "https://pki" "bob" "other.com"]
      "sig0" (some ⟨"02aabb"⟩) ⟨"76a914", "1abc"⟩ "profboom"
      (by decide) (by decide) rfl (Or.inr ⟨by decide, by decide, rfl⟩) rfl (by decide)
      (by decide) rfl rfl rfl (by decide) rfl rfl).1,
   (profileErrorNonAborting cfgW colProfErr "t" rhex0 "example.com" "alice@example.com"
      "other.com" "bob@other.com" capsW
      [⟨.warn, "sender validation is ENFORCED"⟩,
       ⟨.info, "--sender-handle bob@other.com\x27s pubkey: 02aabb"⟩,
       ⟨.success, "send request pre-validation: passed"⟩]
      [NetCall.discover "other.com", NetCall.pki "https://pki" "bob" "other.com"]
      "sig0" (some ⟨"02aabb"⟩) ⟨"76a914", "1abc"⟩ "profboom"
      (by decide) (by decide) rfl (Or.inr ⟨by decide, by decide, rfl⟩) rfl (by decide)
      (by decide) rfl rfl rfl (by decide) rfl rfl).2.1⟩

/-- C8 (code-bug evaluation): at a concrete run with `--sender-name Alice`
and `--sender-handle bob@other.com`, the outgoing resolution request carries
amount, purpose, dt, sender handle and signature from the caller's input, but
its senderName field equals the sender-handle flag value, not the configured
sender name: `init` (resolve.go:231) binds the sender-name viper key to the
sender-handle flag. -/
theorem senderNameBindingBugEval :
    cfgW.senderNameFlag = "Alice" ∧
    viperGetString cfgW flagSenderName = "bob@other.com" ∧
    NetCall.resolve "https://res" "alice" "example.com"
        { Amount := 5, Dt := "t", Purpose := "coffee", SenderHandle := "bob@other.com",
          SenderName := "bob@other.com", Signature := "sig0" } ∈
      (run cfgW colW "t" rhex0).calls ∧
    ((run cfgW colW "t" rhex0).calls.filterMap NetCall.resolveReq).map
        AddressResolutionRequest.SenderName = ["bob@other.com"] := by
  refine ⟨rfl, ?_, ?_, ?_⟩ <;> decide

/-- C10, counterexample: a deterministic transport collaborator whose
resolution response depends on the request's `dt` field makes two runs of the
same inputs at different times produce different final outputs, so the claim
as stated fails. -/
theorem determinismCounterexample :
    (run cfgW colDt "t1" rhex0).output = some ("t1", "1abc") ∧
    (run cfgW colDt "t2" rhex0).output = some ("t2", "1abc") ∧
    (run cfgW colDt "t1" rhex0).output ≠ (run cfgW colDt "t2" rhex0).output := by
  refine ⟨?_, ?_, ?_⟩ <;> decide

/-- C10 (amended): for fixed inputs and a deterministic transport collaborator
whose address-resolution responses do not depend on the request's `dt` and
signature fields, two runs produce identical logs and identical final output
script and address; their outgoing calls agree except possibly in the
request's `dt` and, when the signature is synthesized, its signature; when
the caller supplied a signature the calls agree on everything except `dt`. -/
theorem runDeterminism (cfg : Config) (col : Collab) (n1 n2 : String)
    (r1 r2 : Nat → String)
    (hIns : ∀ u a dd q1 q2, reqErase q1 = reqErase q2 →
      col.addressResolution u a dd q1 = col.addressResolution u a dd q2) :
    (run cfg col n1 r1).logs = (run cfg col n2 r2).logs ∧
    (run cfg col n1 r1).output = (run cfg col n2 r2).output ∧
    (run cfg col n1 r1).calls.map callCore = (run cfg col n2 r2).calls.map callCore ∧
    (cfg.signature.length ≠ 0 →
      (run cfg col n1 r1).calls.map callCoreDt =
        (run cfg col n2 r2).calls.map callCoreDt) := by
  rcases hx : extractParts cfg.arg with ⟨d, pa⟩
  by_cases hpa : pa.length = 0
  · rw [run_no_address cfg col n1 r1 (by rw [hx]; exact hpa),
      run_no_address cfg col n2 r2 (by rw [hx]; exact hpa)]
    simp
  · rcases hvv : col.validate pa d with _ | _
    · rw [run_validate_fail cfg col n1 r1 hx hpa hvv,
        run_validate_fail cfg col n2 r2 hx hpa hvv]
      simp
    · rcases hsd : extractParts cfg.senderHandleFlag with ⟨sdom, sh⟩
      by_cases hsh : sh.length = 0
      · rw [run_default_sender cfg col n1 r1 hx hpa hvv (by rw [hsd]; exact hsh),
          run_default_sender cfg col n2 r2 hx hpa hvv (by rw [hsd]; exact hsh)]
        exact discoveryPhase_congr cfg col n1 n2 r1 r2 d pa d pa _ hIns
      · rcases hv2 : col.validate sh sdom with _ | _
        · rw [run_sender_invalid cfg col n1 r1 hx hpa hvv hsd hsh hv2,
            run_sender_invalid cfg col n2 r2 hx hpa hvv hsd hsh hv2]
          simp
        · rw [run_explicit_sender cfg col n1 r1 hx hpa hvv hsd hsh hv2,
            run_explicit_sender cfg col n2 r2 hx hpa hvv hsd hsh hv2]
          exact discoveryPhase_congr cfg col n1 n2 r1 r2 d pa sdom sh [] hIns

/-- Witness for the amended C10 at a concrete request-insensitive transport. -/
theorem runDeterminismWitness :
    (run cfgW colW "t1" rhex0).output = (run cfgW colW "t2" rhex0).output ∧
    (run cfgW colW "t1" rhex0).logs = (run cfgW colW "t2" rhex0).logs :=
  ⟨(runDeterminism cfgW colW "t1" "t2" rhex0 rhex0 (fun _ _ _ _ _ _ => rfl)).2.1,
   (runDeterminism cfgW colW "t1" "t2" rhex0 rhex0 (fun _ _ _ _ _ _ => rfl)).1⟩
